import Mathlib

/-!
Verification of the Ekaksh application core (src/app/app.py).

The embedding models the credential store (SQLite `users` table accessed
through the ORM session), the register/login handlers, the Streamlit
session state, and the assistant-routing branch of `assistant_interface`.

The bcrypt library is an external collaborator that is not part of the
repository; `register_user` and `login_user` are therefore parameterised
by the hashing and verification functions (`hash_password` receives the
salt produced by `bcrypt.gensalt()` as an explicit argument), and the
spec-level properties of bcrypt appear as hypotheses where a claim needs
them.  The delegated assistant (`assistant_agent.run`) is likewise a
parameter of type `String → Except Unit String`; the second component of
`get_answer`'s result records the prompts actually sent to it.
-/

namespace Ekaksh

/-- A row of the `users` table: `id` integer primary key, `username`
unique and required, `password` stores the bcrypt hash. -/
structure User where
  id : Nat
  username : String
  password : String
deriving DecidableEq, Repr

/-- The credential store: the rows of the `users` table in insertion
order (SQLite assigns `id := length + 1`). -/
abbrev Store := List User

/-- `session.query(User).filter_by(username=username).first()`:
exact-match lookup, `none` on miss. -/
def find_by_username (db : Store) (username : String) : Option User :=
  db.find? (fun r => r.username == username)

/-- Streamlit `st.session_state`, restricted to the two keys the app
uses; `none` models an absent key. -/
structure SessionState where
  logged_in : Option Bool
  username : Option String
deriving DecidableEq, Repr

/-- The observable outcome of the Register button handler:
`st.success("Registration successful! ...")`,
`st.error("Passwords do not match!")`, or
`st.error("Username already exists! ...")`. -/
inductive RegisterResult where
  | success
  | passwordMismatch
  | duplicateUsername
deriving DecidableEq, Repr

/-- The Register button handler (app.py lines 165-177).  `hash_password`
is the bcrypt wrapper `hash_password(password)`; the `salt` argument
models the fresh `bcrypt.gensalt()` it draws.  The handler never touches
`st.session_state`, so the session component is threaded through
unchanged. -/
def register_user (hash_password : String → String → String)
    (db : Store) (sess : SessionState)
    (username password confirm_password salt : String) :
    RegisterResult × Store × SessionState :=
  if password ≠ confirm_password then
    (RegisterResult.passwordMismatch, db, sess)
  else if (find_by_username db username).isSome then
    (RegisterResult.duplicateUsername, db, sess)
  else
    (RegisterResult.success,
     db ++ [{ id := db.length + 1, username := username,
              password := hash_password password salt }],
     sess)

/-- The observable outcome of the Login button handler:
`st.success("Login successful!")` with the identity, or
`st.error("Invalid username or password")`. -/
inductive LoginResult where
  | success (username : String)
  | invalidCredentials
deriving DecidableEq, Repr

/-- The Login button handler (app.py lines 186-193).  `check_password`
is the bcrypt wrapper `check_password(hashed_password, password)`.  On
success it sets `st.session_state["logged_in"] = True` and
`st.session_state["username"] = username`; on failure the session is
untouched.  Python short-circuits `if user and check_password(...)`, so
`check_password` is only consulted when the lookup succeeded. -/
def login_user (check_password : String → String → Bool)
    (db : Store) (sess : SessionState) (username password : String) :
    LoginResult × SessionState :=
  match find_by_username db username with
  | some user =>
    if check_password user.password password then
      (LoginResult.success username,
       { logged_in := some true, username := some username })
    else
      (LoginResult.invalidCredentials, sess)
  | none => (LoginResult.invalidCredentials, sess)

/-- App-logic lines 221-222:
`if "logged_in" not in st.session_state: st.session_state["logged_in"] = False`. -/
def session_start (sess : SessionState) : SessionState :=
  match sess.logged_in with
  | none => { sess with logged_in := some false }
  | some _ => sess

/-- Python `str.lower()` applied character-wise. -/
def pyLower (s : String) : String := String.mk (s.data.map Char.toLower)

/-- Classification of the query (app.py line 207): CODE when the
lowercased query contains "code", "function" or "script" as a substring,
otherwise MATH. -/
inductive QueryClass where
  | CODE
  | MATH
deriving DecidableEq, Repr

/-- Python's substring operator `needle in haystack` on character
lists: the needle is a prefix of some suffix of the haystack. -/
def hasSub (needle : List Char) : List Char → Bool
  | [] => needle.isEmpty
  | c :: rest => needle.isPrefixOf (c :: rest) || hasSub needle rest

/-- `"code" in query.lower() or "function" in query.lower() or
"script" in query.lower()` decides the class. -/
def classify_query (query : String) : QueryClass :=
  if hasSub "code".toList (pyLower query).toList ||
      hasSub "function".toList (pyLower query).toList ||
      hasSub "script".toList (pyLower query).toList then
    QueryClass.CODE
  else
    QueryClass.MATH

/-- The prompt forwarded to `assistant_agent.run` (app.py lines 208, 210):
an f-string embedding the query unmodified. -/
def assistant_prompt (query : String) : String :=
  match classify_query query with
  | QueryClass.CODE => "Generate code for the following task: " ++ query
  | QueryClass.MATH => "Solve this math problem: " ++ query

/-- The observable outcome of the Get Answer button handler:
the assistant's response displayed via `st.success`, the
`st.warning("Please enter a valid query")` branch for a falsy query, or
the propagated failure of the assistant call (no handler in app.py
catches it; it surfaces as the displayed error of the run). -/
inductive RouteResult where
  | answered (response : String)
  | emptyQueryWarning
  | assistantUnavailable
deriving DecidableEq, Repr

/-- The Get Answer button handler (app.py lines 205-214).  `answer`
is the delegated assistant `assistant_agent.run`, which may fail.
Python's `if query:` is string truthiness, i.e. `query ≠ ""`.  The
second component lists the prompts sent to the assistant, in order. -/
def get_answer (answer : String → Except Unit String) (query : String) :
    RouteResult × List String :=
  if query ≠ "" then
    match answer (assistant_prompt query) with
    | Except.ok r => (RouteResult.answered r, [assistant_prompt query])
    | Except.error _ => (RouteResult.assistantUnavailable, [assistant_prompt query])
  else
    (RouteResult.emptyQueryWarning, [])

/-- One user action against the application state, for invariants over
arbitrary operation sequences. -/
inductive Op where
  | reg (username password confirm_password salt : String)
  | login (username password : String)
  | start
deriving DecidableEq, Repr

/-- The full mutable state: credential store plus session. -/
structure AppState where
  db : Store
  sess : SessionState
deriving DecidableEq, Repr

/-- Apply one action to the application state. -/
def apply_op (hash_password : String → String → String)
    (check_password : String → String → Bool)
    (st : AppState) : Op → AppState
  | Op.reg u p c s =>
    { db := (register_user hash_password st.db st.sess u p c s).2.1,
      sess := (register_user hash_password st.db st.sess u p c s).2.2 }
  | Op.login u p =>
    { st with sess := (login_user check_password st.db st.sess u p).2 }
  | Op.start => { st with sess := session_start st.sess }

/-- Run a sequence of actions from a starting state. -/
def run_ops (hash_password : String → String → String)
    (check_password : String → String → Bool)
    (st : AppState) : List Op → AppState
  | [] => st
  | op :: ops => run_ops hash_password check_password
      (apply_op hash_password check_password st op) ops

/-- A concrete stand-in hash used only to instantiate witnesses: a
marker, the salt, then the password. -/
def myHash (p s : String) : String := "$" ++ s ++ p

/-- A concrete stand-in verifier used only to instantiate witnesses. -/
def myCheck (h p : String) : Bool := h == myHash p "s1"

/-! ### Helper lemmas -/

/-- Appending one row whose username matches makes a previously missing
lookup succeed on exactly that row. -/
lemma find_by_username_append_self (db : Store) (u : String) (r : User)
    (hnone : find_by_username db u = none) (hr : r.username = u) :
    find_by_username (db ++ [r]) u = some r := by
  unfold find_by_username at hnone ⊢
  simp [List.find?_append, hnone, List.find?_cons, hr]

/-- The register handler either leaves the store alone or appends the
single freshly hashed row. -/
lemma register_user_db (hash_password : String → String → String)
    (db : Store) (sess : SessionState) (u p c s : String) :
    (register_user hash_password db sess u p c s).2.1 = db ∨
    (register_user hash_password db sess u p c s).2.1 =
      db ++ [{ id := db.length + 1, username := u,
               password := hash_password p s }] := by
  unfold register_user
  split
  · left; rfl
  · split
    · left; rfl
    · right; rfl

/-- The register handler returns the session component unchanged in
every branch. -/
lemma register_user_sess (hash_password : String → String → String)
    (db : Store) (sess : SessionState) (u p c s : String) :
    (register_user hash_password db sess u p c s).2.2 = sess := by
  unfold register_user
  split
  · rfl
  · split
    · rfl
    · rfl

/-- The boolean substring test agrees with the contiguous-sublist
relation on lists of characters. -/
lemma hasSub_iff (needle l : List Char) :
    hasSub needle l = true ↔ needle <:+: l := by
  induction l with
  | nil =>
    simp [hasSub, List.infix_nil]
  | cons c rest ih =>
    simp [hasSub, ih, List.infix_cons_iff]

/-- For a non-empty query, exactly one prompt is sent to the assistant,
namely `assistant_prompt query`, whether the call succeeds or fails. -/
lemma get_answer_calls (answer : String → Except Unit String) (q : String)
    (hq : q ≠ "") : (get_answer answer q).2 = [assistant_prompt q] := by
  unfold get_answer
  rw [if_pos hq]
  cases h : answer (assistant_prompt q) <;> simp [h]

/-! ### Claim theorems -/

/-- Claim C5: for every username and every pair of distinct strings
`a ≠ b`, registering with password `a` and confirmation `b` fails with
the password-mismatch error, and neither the store nor the session is
changed: no record is created. -/
theorem register_mismatch_fails (hash_password : String → String → String)
    (db : Store) (sess : SessionState) (u a b salt : String) (h : a ≠ b) :
    register_user hash_password db sess u a b salt =
      (RegisterResult.passwordMismatch, db, sess) := by
  simp [register_user, h]

/-- Witness for C5 at a concrete input. -/
theorem register_mismatch_fails_witness :
    ("secret" : String) ≠ "typo" ∧
    register_user myHash [] ⟨none, none⟩ "alice" "secret" "typo" "s1" =
      (RegisterResult.passwordMismatch, [], ⟨none, none⟩) :=
  ⟨by decide,
   register_mismatch_fails myHash [] ⟨none, none⟩ "alice" "secret" "typo" "s1"
     (by decide)⟩

/-- Claim C9: `session_start` is idempotent — running it twice in a row
equals running it once; on an already-initialized session it changes
nothing, and on a fresh session it sets the authentication flag to
false. -/
theorem session_start_idempotent (sess : SessionState) :
    session_start (session_start sess) = session_start sess ∧
    (sess.logged_in ≠ none → session_start sess = sess) ∧
    (sess.logged_in = none →
      session_start sess = { sess with logged_in := some false }) := by
  obtain ⟨li, un⟩ := sess
  cases li <;> simp [session_start]

/-- Witness for C9 on a fresh session and on an authenticated one. -/
theorem session_start_idempotent_witness :
    session_start (session_start ⟨none, none⟩) = session_start ⟨none, none⟩ ∧
    session_start ⟨none, none⟩ =
      { SessionState.mk none none with logged_in := some false } ∧
    session_start ⟨some true, some "alice"⟩ = ⟨some true, some "alice"⟩ :=
  ⟨(session_start_idempotent ⟨none, none⟩).1,
   (session_start_idempotent ⟨none, none⟩).2.2 rfl,
   (session_start_idempotent ⟨some true, some "alice"⟩).2.1 (by decide)⟩

/-- Claim C10: a successful registration leaves the session state
unchanged — on an unauthenticated session the flag stays false and the
username key stays absent, so the user must still log in. -/
theorem register_preserves_session (hash_password : String → String → String)
    (db : Store) (sess : SessionState) (u p c salt : String)
    (_hs : (register_user hash_password db sess u p c salt).1 =
      RegisterResult.success)
    (hli : sess.logged_in = some false) (hun : sess.username = none) :
    (register_user hash_password db sess u p c salt).2.2 = sess ∧
    (register_user hash_password db sess u p c salt).2.2.logged_in = some false ∧
    (register_user hash_password db sess u p c salt).2.2.username = none := by
  have key := register_user_sess hash_password db sess u p c salt
  refine ⟨key, ?_, ?_⟩
  · rw [key]
    exact hli
  · rw [key]
    exact hun

/-- Witness for C10 at a concrete successful registration. -/
theorem register_preserves_session_witness :
    (register_user myHash [] ⟨some false, none⟩ "alice" "pw" "pw" "s1").1 =
      RegisterResult.success ∧
    (register_user myHash [] ⟨some false, none⟩ "alice" "pw" "pw" "s1").2.2 =
      ⟨some false, none⟩ :=
  ⟨by decide,
   (register_preserves_session myHash [] ⟨some false, none⟩ "alice" "pw" "pw" "s1"
     (by decide) rfl rfl).1⟩

/-- Claim C2: login fails when the username is absent and when the
stored hash does not verify, and the observable outcome is the very same
value in the two cases — the invalid-credentials error with the session
untouched — so the error does not reveal which field was wrong. -/
theorem login_failure_uniform (check_password : String → String → Bool)
    (db : Store) (sess : SessionState) (u p : String) :
    (find_by_username db u = none →
      login_user check_password db sess u p =
        (LoginResult.invalidCredentials, sess)) ∧
    (∀ r, find_by_username db u = some r → check_password r.password p = false →
      login_user check_password db sess u p =
        (LoginResult.invalidCredentials, sess)) := by
  constructor
  · intro h
    simp [login_user, h]
  · intro r hr hc
    simp [login_user, hr, hc]

/-- Witness for C2: a missing user and a wrong password produce the same
outcome. -/
theorem login_failure_uniform_witness :
    login_user myCheck [] ⟨none, none⟩ "nouser" "anything" =
      (LoginResult.invalidCredentials, ⟨none, none⟩) ∧
    login_user (fun _ _ => false) [⟨1, "alice", "H"⟩] ⟨none, none⟩ "alice" "wrong" =
      (LoginResult.invalidCredentials, ⟨none, none⟩) :=
  ⟨(login_failure_uniform myCheck [] ⟨none, none⟩ "nouser" "anything").1 rfl,
   (login_failure_uniform (fun _ _ => false) [⟨1, "alice", "H"⟩] ⟨none, none⟩
     "alice" "wrong").2 ⟨1, "alice", "H"⟩ (by decide) rfl⟩

/-- Claim C7: when the assistant call fails, the handler surfaces the
propagated failure as its observable outcome, sends exactly one prompt
(no retries), and produces no fallback answer. -/
theorem assistant_failure_propagates (answer : String → Except Unit String)
    (q : String) (e : Unit) (hq : q ≠ "")
    (hfail : answer (assistant_prompt q) = Except.error e) :
    get_answer answer q =
      (RouteResult.assistantUnavailable, [assistant_prompt q]) := by
  unfold get_answer
  rw [if_pos hq, hfail]

/-- Witness for C7 with an always-failing assistant. -/
theorem assistant_failure_propagates_witness :
    ("2+2" : String) ≠ "" ∧
    (fun _ : String => (Except.error () : Except Unit String))
      (assistant_prompt "2+2") = Except.error () ∧
    get_answer (fun _ => Except.error ()) "2+2" =
      (RouteResult.assistantUnavailable, [assistant_prompt "2+2"]) :=
  ⟨by decide, rfl,
   assistant_failure_propagates (fun _ => Except.error ()) "2+2" () (by decide) rfl⟩

/-- Counterexample for C6: the whitespace-only query made of one space is
blank but passes Python truthiness, so it is not rejected — it is
classified MATH and a prompt is sent to the assistant. -/
theorem blank_query_not_rejected :
    get_answer (fun _ => Except.ok "ok") " " =
      (RouteResult.answered "ok", ["Solve this math problem:  "]) ∧
    get_answer (fun _ => Except.ok "ok") " " ≠
      (RouteResult.emptyQueryWarning, []) := by
  constructor
  · decide
  · decide

/-- Claim C6 (amended): every empty query is rejected with the
empty-query warning before classification, and no prompt is sent to the
assistant; whitespace-only non-empty queries are not rejected. -/
theorem empty_query_rejected (answer : String → Except Unit String) :
    get_answer answer "" = (RouteResult.emptyQueryWarning, []) := by
  simp [get_answer]

/-- Claim C1: for a valid pair with an unused username, provided the
verifier accepts the hash the register handler stored (bcrypt's
contract), register followed by login succeeds, yields that username as
the identity, and marks the session authenticated as that username. -/
theorem register_then_login (hash_password : String → String → String)
    (check_password : String → String → Bool)
    (db : Store) (sess : SessionState) (u p salt : String)
    (_hu : u ≠ "") (habsent : find_by_username db u = none)
    (hverify : check_password (hash_password p salt) p = true) :
    (register_user hash_password db sess u p p salt).1 =
      RegisterResult.success ∧
    (login_user check_password (register_user hash_password db sess u p p salt).2.1
      sess u p).1 = LoginResult.success u ∧
    (login_user check_password (register_user hash_password db sess u p p salt).2.1
      sess u p).2 = { logged_in := some true, username := some u } := by
  have hreg : register_user hash_password db sess u p p salt =
      (RegisterResult.success,
       db ++ [{ id := db.length + 1, username := u,
                password := hash_password p salt }],
       sess) := by
    simp [register_user, habsent]
  rw [hreg]
  have hfind := find_by_username_append_self db u
    { id := db.length + 1, username := u, password := hash_password p salt }
    habsent rfl
  simp [login_user, hfind, hverify]

/-- Witness for C1 at a concrete fresh registration. -/
theorem register_then_login_witness :
    ("alice" : String) ≠ "" ∧
    find_by_username [] "alice" = none ∧
    myCheck (myHash "pw" "s1") "pw" = true ∧
    (register_user myHash [] ⟨none, none⟩ "alice" "pw" "pw" "s1").1 =
      RegisterResult.success ∧
    (login_user myCheck (register_user myHash [] ⟨none, none⟩ "alice" "pw" "pw" "s1").2.1
      ⟨none, none⟩ "alice" "pw").1 = LoginResult.success "alice" ∧
    (login_user myCheck (register_user myHash [] ⟨none, none⟩ "alice" "pw" "pw" "s1").2.1
      ⟨none, none⟩ "alice" "pw").2 = { logged_in := some true, username := some "alice" } :=
  ⟨by decide, rfl, by decide,
   (register_then_login myHash myCheck [] ⟨none, none⟩ "alice" "pw" "s1"
     (by decide) rfl (by decide)).1,
   (register_then_login myHash myCheck [] ⟨none, none⟩ "alice" "pw" "s1"
     (by decide) rfl (by decide)).2.1,
   (register_then_login myHash myCheck [] ⟨none, none⟩ "alice" "pw" "s1"
     (by decide) rfl (by decide)).2.2⟩

/-- Claim C4: after a successful registration of a username, any second
registration of the same username fails with the duplicate-username
error whatever the second password and even under a different hashing
function — the duplicate branch never hashes — and the store is
unchanged. -/
theorem duplicate_register_fails
    (hash_password hash_password2 : String → String → String)
    (db db1 : Store) (sess sess2 : SessionState) (u p1 salt1 : String)
    (h : register_user hash_password db sess u p1 p1 salt1 =
      (RegisterResult.success, db1, sess)) :
    ∀ p2 salt2, register_user hash_password2 db1 sess2 u p2 p2 salt2 =
      (RegisterResult.duplicateUsername, db1, sess2) := by
  intro p2 salt2
  cases hopt : find_by_username db u with
  | some r =>
    simp [register_user, hopt] at h
  | none =>
    simp [register_user, hopt] at h
    have hfind1 := find_by_username_append_self db u
      { id := db.length + 1, username := u, password := hash_password p1 salt1 }
      hopt rfl
    rw [h] at hfind1
    simp [register_user, hfind1]

/-- Witness for C4: re-registering "alice" with a different password and
a different hash function fails and leaves the store as it was. -/
theorem duplicate_register_fails_witness :
    register_user myHash [] ⟨none, none⟩ "alice" "pw" "pw" "s1" =
      (RegisterResult.success, [⟨1, "alice", myHash "pw" "s1"⟩], ⟨none, none⟩) ∧
    register_user (fun p s => p ++ s) [⟨1, "alice", myHash "pw" "s1"⟩] ⟨none, none⟩
      "alice" "other" "other" "s2" =
      (RegisterResult.duplicateUsername, [⟨1, "alice", myHash "pw" "s1"⟩], ⟨none, none⟩) :=
  ⟨by decide,
   duplicate_register_fails myHash (fun p s => p ++ s) [] [⟨1, "alice", myHash "pw" "s1"⟩]
     ⟨none, none⟩ ⟨none, none⟩ "alice" "pw" "s1" (by decide) "other" "s2"⟩

/-- Claim C3: a non-empty query is classified CODE exactly when its
lowercasing contains "code", "function" or "script" as a contiguous
substring, and the prompt sent to the assistant is the corresponding
template with the query embedded unmodified. -/
theorem classify_and_forward (q : String) (hq : q ≠ "") :
    (classify_query q = QueryClass.CODE ↔
      ("code".toList <:+: (pyLower q).toList ∨
       "function".toList <:+: (pyLower q).toList ∨
       "script".toList <:+: (pyLower q).toList)) ∧
    (∀ answer, classify_query q = QueryClass.CODE →
      (get_answer answer q).2 = ["Generate code for the following task: " ++ q]) ∧
    (∀ answer, classify_query q = QueryClass.MATH →
      (get_answer answer q).2 = ["Solve this math problem: " ++ q]) := by
  refine ⟨?_, ?_, ?_⟩
  · unfold classify_query
    split
    case isTrue hc =>
      simp only [Bool.or_eq_true, hasSub_iff] at hc
      exact iff_of_true rfl (by tauto)
    case isFalse hc =>
      simp only [Bool.or_eq_true, hasSub_iff] at hc
      exact iff_of_false (by decide) (by tauto)
  · intro answer hc
    rw [get_answer_calls answer q hq]
    simp [assistant_prompt, hc]
  · intro answer hc
    rw [get_answer_calls answer q hq]
    simp [assistant_prompt, hc]

/-- Witness for C3 on the spec's two sample queries. -/
theorem classify_and_forward_witness :
    ("solve 2x+3=7" : String) ≠ "" ∧
    classify_query "solve 2x+3=7" = QueryClass.MATH ∧
    classify_query "write a function to sort a list" = QueryClass.CODE ∧
    (∀ answer, classify_query "solve 2x+3=7" = QueryClass.MATH →
      (get_answer answer "solve 2x+3=7").2 =
        ["Solve this math problem: " ++ "solve 2x+3=7"]) :=
  ⟨by decide, by decide, by decide,
   (classify_and_forward "solve 2x+3=7" (by decide)).2.2⟩

/-- Claim C8: starting from the empty store, after any sequence of
operations every stored password field is the hash of some password and
salt, and — given bcrypt's property that a hash of a non-empty password
differs from it — never the plaintext. -/
theorem stored_passwords_are_hashes
    (hash_password : String → String → String)
    (check_password : String → String → Bool)
    (ops : List Op) (r : User)
    (hne : ∀ p s, p ≠ "" → hash_password p s ≠ p)
    (hmem : r ∈ (run_ops hash_password check_password ⟨[], ⟨none, none⟩⟩ ops).db) :
    ∃ p s, r.password = hash_password p s ∧ (p ≠ "" → r.password ≠ p) := by
  suffices h : ∀ st : AppState,
      (∀ x ∈ st.db, ∃ p s, x.password = hash_password p s) →
      ∀ x ∈ (run_ops hash_password check_password st ops).db,
        ∃ p s, x.password = hash_password p s by
    obtain ⟨p, s, hps⟩ := h ⟨[], ⟨none, none⟩⟩ (by simp) r hmem
    exact ⟨p, s, hps, fun hp => hps ▸ hne p s hp⟩
  clear hmem r
  induction ops with
  | nil =>
    intro st hst x hx
    exact hst x hx
  | cons op rest ih =>
    intro st hst x hx
    refine ih (apply_op hash_password check_password st op) ?_ x hx
    intro y hy
    cases op with
    | reg u p c s =>
      rcases register_user_db hash_password st.db st.sess u p c s with hdb | hdb
      · rw [apply_op, hdb] at hy
        exact hst y hy
      · rw [apply_op, hdb] at hy
        rcases List.mem_append.mp hy with hmem2 | hmem2
        · exact hst y hmem2
        · rcases List.mem_singleton.mp hmem2 with rfl
          exact ⟨p, s, rfl⟩
    | login u p =>
      rw [apply_op] at hy
      exact hst y hy
    | start =>
      rw [apply_op] at hy
      exact hst y hy

/-- Witness for C8: the record created by one registration under the
stand-in hash satisfies the invariant. -/
theorem stored_passwords_are_hashes_witness :
    (∀ p s, p ≠ "" → myHash p s ≠ p) ∧
    User.mk 1 "alice" (myHash "pw" "s1") ∈
      (run_ops myHash myCheck ⟨[], ⟨none, none⟩⟩ [Op.reg "alice" "pw" "pw" "s1"]).db ∧
    ∃ p s, (User.mk 1 "alice" (myHash "pw" "s1")).password = myHash p s ∧
      (p ≠ "" → (User.mk 1 "alice" (myHash "pw" "s1")).password ≠ p) := by
  have hne : ∀ p s, p ≠ "" → myHash p s ≠ p := by
    intro p s _ h
    have hl := congrArg String.length h
    rw [myHash, String.length_append, String.length_append,
      show ("$" : String).length = 1 from rfl] at hl
    omega
  refine ⟨hne, by decide, ?_⟩
  exact stored_passwords_are_hashes myHash myCheck [Op.reg "alice" "pw" "pw" "s1"]
    (User.mk 1 "alice" (myHash "pw" "s1")) hne (by decide)

end Ekaksh
